import Mathlib

/-
Verification development for the `timers` Volatility plugin
(`src/timers.py`): enumeration of Windows kernel timers, version/bitness
dispatch over three timer-table layouts, signature-based resolution of
`KiTimerTableListHead`, de-obfuscation of the `_KTIMER.Dpc` pointer with
the two PatchGuard secrets `wait_never` / `wait_always`, record filtering
and the two output renderers.

Pure computations are embedded directly; 64-bit machine words are `Nat`
with explicit `% 2 ^ 64` where overflow matters.  The helpers
`patchguard.bswap` / `patchguard.rol` and the `VolatilityKDBG` scan are
imported by `src/timers.py` from files that are not under `src/`; they are
modelled from the spec where noted.
-/

/-! ### 64-bit primitives -/

/-- Byte `i` (0 = least significant) of a natural number. -/
def byteAt (x i : Nat) : Nat := x / 2 ^ (8 * i) % 256

/-- Modelled from the spec: `patchguard.bswap` (imported by `src/timers.py`,
not itself under `src/`) — "Byte-swap reverses all 8 bytes (full 64-bit
endianness flip)". -/
def bswap (x : Nat) : Nat :=
  x % 256 * 2 ^ 56 + x / 2 ^ 8 % 256 * 2 ^ 48 + x / 2 ^ 16 % 256 * 2 ^ 40 +
    x / 2 ^ 24 % 256 * 2 ^ 32 + x / 2 ^ 32 % 256 * 2 ^ 24 +
    x / 2 ^ 40 % 256 * 2 ^ 16 + x / 2 ^ 48 % 256 * 2 ^ 8 + x / 2 ^ 56 % 256

/-- Modelled from the spec: `patchguard.rol` (imported by `src/timers.py`,
not itself under `src/`) — 64-bit rotate left, the "rotate amount ...
taken modulo 64 for the rotate operation". -/
def rol (x c : Nat) : Nat :=
  x % 2 ^ 64 * 2 ^ (c % 64) % 2 ^ 64 + x % 2 ^ 64 / 2 ^ (64 - c % 64)

/-- Modelled from the spec: the "inverse-rotate" used by `encode` —
64-bit rotate right by the same amount modulo 64. -/
def ror (x c : Nat) : Nat :=
  x % 2 ^ 64 % 2 ^ (c % 64) * 2 ^ (64 - c % 64) + x % 2 ^ 64 / 2 ^ (c % 64)

/-- The decode transform of `_KTIMER.Dpc` (`src/timers.py` lines 85-87):
`decoded = bswap(rol(dpc ^ wait_never, wait_never & 0xFF) ^ obj_offset)
^ wait_always`. -/
def dpcDecoded (dpc objOffset waitNever waitAlways : Nat) : Nat :=
  bswap (rol (dpc ^^^ waitNever) (waitNever &&& 255) ^^^ objOffset) ^^^ waitAlways

/-- Modelled from the spec: `encode`, the exact algebraic inverse of the
decoder, built from the listed operations XOR `always`, byteswap,
XOR `offset`, inverse-rotate by `never & 0xFF`, XOR `never` (the XOR with
the record offset undoes the decoder's XOR inside the byte swap, so it is
applied right after the byte swap, before the inverse rotate). -/
def encode (v objOffset waitNever waitAlways : Nat) : Nat :=
  ror (bswap (v ^^^ waitAlways) ^^^ objOffset) (waitNever &&& 255) ^^^ waitNever

/-! ### Lemmas about the primitives -/

theorem bswap_lt (x : Nat) : bswap x < 2 ^ 64 := by
  unfold bswap; omega

theorem byteAt_assembled (b7 b6 b5 b4 b3 b2 b1 b0 : Nat)
    (h7 : b7 < 256) (h6 : b6 < 256) (h5 : b5 < 256) (h4 : b4 < 256)
    (h3 : b3 < 256) (h2 : b2 < 256) (h1 : b1 < 256) (h0 : b0 < 256) :
    byteAt (b7 * 2 ^ 56 + b6 * 2 ^ 48 + b5 * 2 ^ 40 + b4 * 2 ^ 32 +
      b3 * 2 ^ 24 + b2 * 2 ^ 16 + b1 * 2 ^ 8 + b0) 0 = b0 ∧
    byteAt (b7 * 2 ^ 56 + b6 * 2 ^ 48 + b5 * 2 ^ 40 + b4 * 2 ^ 32 +
      b3 * 2 ^ 24 + b2 * 2 ^ 16 + b1 * 2 ^ 8 + b0) 1 = b1 ∧
    byteAt (b7 * 2 ^ 56 + b6 * 2 ^ 48 + b5 * 2 ^ 40 + b4 * 2 ^ 32 +
      b3 * 2 ^ 24 + b2 * 2 ^ 16 + b1 * 2 ^ 8 + b0) 2 = b2 ∧
    byteAt (b7 * 2 ^ 56 + b6 * 2 ^ 48 + b5 * 2 ^ 40 + b4 * 2 ^ 32 +
      b3 * 2 ^ 24 + b2 * 2 ^ 16 + b1 * 2 ^ 8 + b0) 3 = b3 ∧
    byteAt (b7 * 2 ^ 56 + b6 * 2 ^ 48 + b5 * 2 ^ 40 + b4 * 2 ^ 32 +
      b3 * 2 ^ 24 + b2 * 2 ^ 16 + b1 * 2 ^ 8 + b0) 4 = b4 ∧
    byteAt (b7 * 2 ^ 56 + b6 * 2 ^ 48 + b5 * 2 ^ 40 + b4 * 2 ^ 32 +
      b3 * 2 ^ 24 + b2 * 2 ^ 16 + b1 * 2 ^ 8 + b0) 5 = b5 ∧
    byteAt (b7 * 2 ^ 56 + b6 * 2 ^ 48 + b5 * 2 ^ 40 + b4 * 2 ^ 32 +
      b3 * 2 ^ 24 + b2 * 2 ^ 16 + b1 * 2 ^ 8 + b0) 6 = b6 ∧
    byteAt (b7 * 2 ^ 56 + b6 * 2 ^ 48 + b5 * 2 ^ 40 + b4 * 2 ^ 32 +
      b3 * 2 ^ 24 + b2 * 2 ^ 16 + b1 * 2 ^ 8 + b0) 7 = b7 := by
  refine ⟨?_, ?_, ?_, ?_, ?_, ?_, ?_, ?_⟩ <;> · unfold byteAt; norm_num; omega

theorem bswap_eq_assembled (x : Nat) :
    bswap x = byteAt x 0 * 2 ^ 56 + byteAt x 1 * 2 ^ 48 + byteAt x 2 * 2 ^ 40 +
      byteAt x 3 * 2 ^ 32 + byteAt x 4 * 2 ^ 24 + byteAt x 5 * 2 ^ 16 +
      byteAt x 6 * 2 ^ 8 + byteAt x 7 := by
  unfold bswap byteAt; norm_num

theorem byteAt_lt (x i : Nat) : byteAt x i < 256 := by
  unfold byteAt; omega

theorem byteAt_bswap (x : Nat) (i : Nat) (hi : i < 8) :
    byteAt (bswap x) i = byteAt x (7 - i) := by
  rw [bswap_eq_assembled]
  have h := byteAt_assembled (byteAt x 0) (byteAt x 1) (byteAt x 2) (byteAt x 3)
    (byteAt x 4) (byteAt x 5) (byteAt x 6) (byteAt x 7)
    (byteAt_lt x 0) (byteAt_lt x 1) (byteAt_lt x 2) (byteAt_lt x 3)
    (byteAt_lt x 4) (byteAt_lt x 5) (byteAt_lt x 6) (byteAt_lt x 7)
  interval_cases i
  · exact h.1
  · exact h.2.1
  · exact h.2.2.1
  · exact h.2.2.2.1
  · exact h.2.2.2.2.1
  · exact h.2.2.2.2.2.1
  · exact h.2.2.2.2.2.2.1
  · exact h.2.2.2.2.2.2.2

theorem bswap_bswap (x : Nat) (hx : x < 2 ^ 64) : bswap (bswap x) = x := by
  rw [bswap_eq_assembled (bswap x)]
  have e0 := byteAt_bswap x 0 (by norm_num)
  have e1 := byteAt_bswap x 1 (by norm_num)
  have e2 := byteAt_bswap x 2 (by norm_num)
  have e3 := byteAt_bswap x 3 (by norm_num)
  have e4 := byteAt_bswap x 4 (by norm_num)
  have e5 := byteAt_bswap x 5 (by norm_num)
  have e6 := byteAt_bswap x 6 (by norm_num)
  have e7 := byteAt_bswap x 7 (by norm_num)
  norm_num at e0 e1 e2 e3 e4 e5 e6 e7
  rw [e0, e1, e2, e3, e4, e5, e6, e7]
  unfold byteAt
  norm_num
  omega

theorem rol_mod_64 (x c : Nat) : rol x c = rol x (c % 64) := by
  unfold rol; rw [Nat.mod_mod_of_dvd c (dvd_refl 64)]

theorem two_pow_split (s : Nat) (hs : s < 64) : 2 ^ (64 - s) * 2 ^ s = 2 ^ 64 := by
  rw [← pow_add]; congr 1; omega

theorem rolAux_lt (A s : Nat) (hA : A < 2 ^ 64) (hs : s < 64) :
    A * 2 ^ s % 2 ^ 64 + A / 2 ^ (64 - s) < 2 ^ 64 := by
  have hba := two_pow_split s hs
  have hq : (0 : Nat) < 2 ^ (64 - s) := Nat.pos_pow_of_pos _ (by norm_num)
  have h1 : A * 2 ^ s % 2 ^ 64 = A % 2 ^ (64 - s) * 2 ^ s := by
    rw [← hba, Nat.mul_mod_mul_right]
  have h2 : A % 2 ^ (64 - s) ≤ 2 ^ (64 - s) - 1 := by
    have := Nat.mod_lt A hq; omega
  have h3 : A % 2 ^ (64 - s) * 2 ^ s ≤ (2 ^ (64 - s) - 1) * 2 ^ s :=
    Nat.mul_le_mul_right _ h2
  have h5 : A / 2 ^ (64 - s) < 2 ^ s := by
    rw [Nat.div_lt_iff_lt_mul hq, Nat.mul_comm]
    rw [hba]; exact hA
  rw [h1]
  calc A % 2 ^ (64 - s) * 2 ^ s + A / 2 ^ (64 - s)
      ≤ (2 ^ (64 - s) - 1) * 2 ^ s + A / 2 ^ (64 - s) := Nat.add_le_add_right h3 _
    _ < (2 ^ (64 - s) - 1) * 2 ^ s + 2 ^ s := Nat.add_lt_add_left h5 _
    _ = 2 ^ (64 - s) * 2 ^ s := by
        rw [Nat.sub_mul, one_mul]
        exact Nat.sub_add_cancel (Nat.le_mul_of_pos_left _ hq)
    _ = 2 ^ 64 := hba

theorem rorAux_rolAux (A s : Nat) (hA : A < 2 ^ 64) (hs : s < 64) :
    (A * 2 ^ s % 2 ^ 64 + A / 2 ^ (64 - s)) % 2 ^ s * 2 ^ (64 - s) +
      (A * 2 ^ s % 2 ^ 64 + A / 2 ^ (64 - s)) / 2 ^ s = A := by
  have hba := two_pow_split s hs
  have hp : (0 : Nat) < 2 ^ s := Nat.pos_pow_of_pos s (by norm_num)
  have hq : (0 : Nat) < 2 ^ (64 - s) := Nat.pos_pow_of_pos _ (by norm_num)
  have h1 : A * 2 ^ s % 2 ^ 64 = A % 2 ^ (64 - s) * 2 ^ s := by
    rw [← hba, Nat.mul_mod_mul_right]
  have h5 : A / 2 ^ (64 - s) < 2 ^ s := by
    rw [Nat.div_lt_iff_lt_mul hq, Nat.mul_comm]
    rw [hba]; exact hA
  rw [h1]
  have hr : A % 2 ^ (64 - s) * 2 ^ s + A / 2 ^ (64 - s) =
      2 ^ s * (A % 2 ^ (64 - s)) + A / 2 ^ (64 - s) := by ring_nf
  rw [hr]
  rw [Nat.mul_add_mod, Nat.mul_add_div hp]
  rw [Nat.mod_eq_of_lt h5, Nat.div_eq_of_lt h5, Nat.add_zero]
  rw [Nat.mul_comm (A / 2 ^ (64 - s)) (2 ^ (64 - s))]
  exact Nat.div_add_mod A (2 ^ (64 - s))

theorem rol_lt (x c : Nat) : rol x c < 2 ^ 64 := by
  unfold rol
  exact rolAux_lt (x % 2 ^ 64) (c % 64) (Nat.mod_lt x (by norm_num))
    (Nat.mod_lt c (by norm_num))

theorem ror_rol (x c : Nat) (hx : x < 2 ^ 64) : ror (rol x c) c = x := by
  have hlt : rol x c < 2 ^ 64 := rol_lt x c
  unfold ror
  rw [Nat.mod_eq_of_lt hlt]
  unfold rol
  rw [Nat.mod_eq_of_lt hx]
  exact rorAux_rolAux x (c % 64) hx (Nat.mod_lt c (by norm_num))

theorem land_255_eq_mod (n : Nat) : n &&& 255 = n % 256 := by
  have h := Nat.and_pow_two_sub_one_eq_mod n 8
  norm_num at h
  exact h

/-! ### Claim C1: the decode formula -/

/-- Claim C1: For every 64-bit obfuscated field value `v`, record offset `o`
and secrets `(never, always)`, the decoder returns
`bswap(rol(v XOR never, never & 0xFF) XOR o) XOR always`, where the rotate
amount is the low 8 bits of `never` taken modulo 64 and the byte swap
reverses all 8 bytes of the 64-bit value. -/
theorem C1_dpc_decode_formula :
    (∀ v o never always : Nat,
      dpcDecoded v o never always =
        bswap (rol (v ^^^ never) (never % 256 % 64) ^^^ o) ^^^ always) ∧
    (∀ never : Nat, never &&& 255 = never % 256) ∧
    (∀ x c : Nat, rol x c = rol x (c % 64)) ∧
    (∀ x, x < 2 ^ 64 → ∀ i, i < 8 → byteAt (bswap x) i = byteAt x (7 - i)) := by
  refine ⟨?_, land_255_eq_mod, rol_mod_64, fun x _ i hi => byteAt_bswap x i hi⟩
  intro v o never always
  unfold dpcDecoded
  rw [land_255_eq_mod, ← rol_mod_64]

/-- Witness for C1 at concrete inputs. -/
theorem C1_dpc_decode_formula_witness :
    dpcDecoded 2 3 5 7 = bswap (rol (2 ^^^ 5) (5 % 256 % 64) ^^^ 3) ^^^ 7 ∧
    byteAt (bswap 258) 6 = byteAt 258 1 :=
  ⟨C1_dpc_decode_formula.1 2 3 5 7,
   C1_dpc_decode_formula.2.2.2 258 (by decide) 6 (by decide)⟩

/-! ### Claim C4: encode/decode round trip -/

/-- Claim C4: Round trip: for all 64-bit tuples `(v, o, never, always)`,
`encode (dpcDecoded v o never always) o never always = v`, `encode` being
the exact algebraic inverse of the decoder. -/
theorem C4_encode_decode_roundtrip (v o never always : Nat)
    (hv : v < 2 ^ 64) (ho : o < 2 ^ 64) (hn : never < 2 ^ 64)
    (ha : always < 2 ^ 64) :
    encode (dpcDecoded v o never always) o never always = v := by
  unfold encode dpcDecoded
  rw [Nat.xor_cancel_right]
  rw [bswap_bswap _ (Nat.xor_lt_two_pow (rol_lt _ _) ho)]
  rw [Nat.xor_cancel_right]
  rw [ror_rol _ _ (Nat.xor_lt_two_pow hv hn)]
  rw [Nat.xor_cancel_right]

/-- Witness for C4 at concrete inputs. -/
theorem C4_encode_decode_roundtrip_witness :
    encode (dpcDecoded 81985529216486895 13 999 54321) 13 999 54321 =
      81985529216486895 :=
  C4_encode_decode_roundtrip 81985529216486895 13 999 54321
    (by decide) (by decide) (by decide) (by decide)

/-! ### Version dispatch (`Timers.calculate`, lines 189-259) -/

/-- The three timer-table layouts of `Timers.calculate`. -/
inductive TimerBranch where
  | branchA
  | branchB
  | branchC
deriving DecidableEq

/-- Branch selection of `Timers.calculate` (`src/timers.py` lines 189, 214,
251): `version == (5, 1) or (version == (5, 2) and build == 3789)` chooses
the 256-list-head layout; `elif version == (5, 2) or version == (6, 0)`
chooses the 512-table-entry layout; `elif version >= (6, 1)` (Python tuple
comparison, i.e. lexicographic) chooses the per-processor layout; the chain
has no `else`.  `build` is `profile.metadata.get('build', 0)`; the branch
condition reads neither the bitness nor anything else. -/
def selectBranch (major minor build : Nat) : Option TimerBranch :=
  if (major = 5 ∧ minor = 1) ∨ ((major = 5 ∧ minor = 2) ∧ build = 3789) then
    some TimerBranch.branchA
  else if (major = 5 ∧ minor = 2) ∨ (major = 6 ∧ minor = 0) then
    some TimerBranch.branchB
  else if 6 < major ∨ (major = 6 ∧ 1 ≤ minor) then
    some TimerBranch.branchC
  else
    none

/-- Claim C2: Branch selection is a pure function of the version data:
(5,1,*) and (5,2,3789) select Branch A; every other (5,2) and every (6,0)
select Branch B; every version with (major, minor) lexicographically at or
above (6,1) — including (7,0) — selects Branch C, the boundary sitting
exactly between (6,0) and (6,1,0). -/
theorem C2_branch_selection (build : Nat) :
    selectBranch 5 1 build = some TimerBranch.branchA ∧
    selectBranch 5 2 3789 = some TimerBranch.branchA ∧
    (build ≠ 3789 → selectBranch 5 2 build = some TimerBranch.branchB) ∧
    selectBranch 6 0 build = some TimerBranch.branchB ∧
    (∀ major minor, 6 < major ∨ (major = 6 ∧ 1 ≤ minor) →
      selectBranch major minor build = some TimerBranch.branchC) ∧
    selectBranch 6 1 0 = some TimerBranch.branchC ∧
    selectBranch 7 0 build = some TimerBranch.branchC := by
  refine ⟨?_, by decide, ?_, ?_, ?_, by decide, ?_⟩
  · unfold selectBranch
    rw [if_pos]
    left; exact ⟨rfl, rfl⟩
  · intro hb
    unfold selectBranch
    rw [if_neg (by omega), if_pos (by omega)]
  · unfold selectBranch
    rw [if_neg (by omega), if_pos (by omega)]
  · intro major minor h
    unfold selectBranch
    rw [if_neg (by omega), if_neg (by omega), if_pos h]
  · unfold selectBranch
    rw [if_neg (by omega), if_neg (by omega), if_pos (by omega)]

/-- Witness for C2 at concrete inputs. -/
theorem C2_branch_selection_witness :
    selectBranch 5 2 77 = some TimerBranch.branchB ∧
    selectBranch 8 3 77 = some TimerBranch.branchC :=
  ⟨(C2_branch_selection 77).2.2.1 (by decide),
   (C2_branch_selection 77).2.2.2.2.1 8 3 (by omega)⟩

/-! ### The `_KTIMER.Dpc` property (lines 51-89) -/

/-- Environment of one `_KTIMER.Dpc` access: target bitness
(`profile.metadata.get("memory_model")`), whether the parent chain reaches
a `_KDDEBUGGER_DATA64` view, and the outcome of the
`win8_kdbg.VolatilityKDBG` scan (modelled from the spec as an opaque
per-run result: `some (wait_never, wait_always)` on success, `none` when no
KDBG structure is found). -/
structure DpcEnv where
  bits32 : Bool
  kdbgParent : Bool
  kdbgScan : Option (Nat × Nat)

/-- Dynamic attributes cached on the parent `_KDDEBUGGER_DATA64` view via
`parent.newattr('wait_never', ...)` / `parent.newattr('wait_always', ...)`:
both secrets present, or neither. -/
structure KdbgAttrs where
  waitSecrets : Option (Nat × Nat)
deriving DecidableEq

/-- Result of one `_KTIMER.Dpc` access: the raw member (32-bit path), a
`_KDPC` view at the decoded address, or a `NoneObject` with its reason. -/
inductive DpcResult where
  | raw (v : Nat)
  | decoded (addr : Nat)
  | noneObject (reason : String)
deriving DecidableEq

/-- One access of the `_KTIMER.Dpc` property (`src/timers.py` lines 51-89).
Returns the result, the updated attribute cache on the KDBG parent, and how
many times the `VolatilityKDBG` bootstrap scan ran during this access.
On 32-bit targets the member is returned directly; otherwise the parent
chain must reach `_KDDEBUGGER_DATA64`; the scan runs only when the cached
attributes are absent, and a failed scan returns a `NoneObject` *without*
populating the cache (lines 75-77 return before `newattr`). -/
def Dpc (env : DpcEnv) (attrs : KdbgAttrs) (dpcField objOffset : Nat) :
    DpcResult × KdbgAttrs × Nat :=
  if env.bits32 then (DpcResult.raw dpcField, attrs, 0)
  else if !env.kdbgParent then
    (DpcResult.noneObject "Parent is not a KDBG structure", attrs, 0)
  else
    match attrs.waitSecrets with
    | some s => (DpcResult.decoded (dpcDecoded dpcField objOffset s.1 s.2), attrs, 0)
    | none =>
      match env.kdbgScan with
      | none => (DpcResult.noneObject "Cannot find KDBG structure", attrs, 1)
      | some s =>
        (DpcResult.decoded (dpcDecoded dpcField objOffset s.1 s.2),
          ⟨some s⟩, 1)

/-- A sequence of `_KTIMER.Dpc` accesses within one run, threading the
attribute cache; also returns the final cache and the total number of
bootstrap scans. -/
def dpcSeq (env : DpcEnv) : KdbgAttrs → List (Nat × Nat) →
    List DpcResult × KdbgAttrs × Nat
  | attrs, [] => ([], attrs, 0)
  | attrs, p :: rest =>
    match Dpc env attrs p.1 p.2 with
    | (r, attrs2, s) =>
      match dpcSeq env attrs2 rest with
      | (rs, attrs3, s2) => (r :: rs, attrs3, s + s2)

theorem dpcSeq_cached (env : DpcEnv) (hb : env.bits32 = false)
    (hk : env.kdbgParent = true) (s : Nat × Nat) (l : List (Nat × Nat)) :
    dpcSeq env ⟨some s⟩ l =
      (l.map fun p => DpcResult.decoded (dpcDecoded p.1 p.2 s.1 s.2),
        ⟨some s⟩, 0) := by
  induction l with
  | nil => rfl
  | cons p rest ih =>
    have hD : Dpc env ⟨some s⟩ p.1 p.2 =
        (DpcResult.decoded (dpcDecoded p.1 p.2 s.1 s.2), ⟨some s⟩, 0) := by
      simp [Dpc, hb, hk]
    simp [dpcSeq, hD, ih]

/-! ### Claim C5 (corrected): secret memoization -/

/-- Counterexample to C5 as stated: with a failing bootstrap, two accesses
in the same run run the bootstrap scan twice — the failure is not cached,
so subsequent decodes do re-run the scan. -/
theorem C5_counterexample :
    (dpcSeq ⟨false, true, none⟩ ⟨none⟩ [(0, 0), (0, 0)]).2.2 = 2 ∧
    ¬ (dpcSeq ⟨false, true, none⟩ ⟨none⟩ [(0, 0), (0, 0)]).2.2 ≤ 1 := by
  decide

/-- Claim C5, amended: Within one run, a successful bootstrap is cached on
the KDBG structure, so the secrets are computed at most once no matter how
many records access the field; if bootstrapping fails, every subsequent
decode fails as well, but the bootstrap scan re-runs on every access
(the failure is not cached). -/
theorem C5_memoization (env : DpcEnv) (l : List (Nat × Nat))
    (hb : env.bits32 = false) (hk : env.kdbgParent = true) :
    (∀ never always, env.kdbgScan = some (never, always) →
      (dpcSeq env ⟨none⟩ l).2.2 ≤ 1 ∧
      (dpcSeq env ⟨none⟩ l).1 =
        l.map fun p => DpcResult.decoded (dpcDecoded p.1 p.2 never always)) ∧
    (env.kdbgScan = none →
      (dpcSeq env ⟨none⟩ l).2.2 = l.length ∧
      (dpcSeq env ⟨none⟩ l).1 =
        l.map fun _ => DpcResult.noneObject "Cannot find KDBG structure") := by
  constructor
  · intro never always hs
    cases l with
    | nil => simp [dpcSeq]
    | cons p rest =>
      have hD : Dpc env ⟨none⟩ p.1 p.2 =
          (DpcResult.decoded (dpcDecoded p.1 p.2 never always),
            ⟨some (never, always)⟩, 1) := by
        simp [Dpc, hb, hk, hs]
      have hrest := dpcSeq_cached env hb hk (never, always) rest
      simp [dpcSeq, hD, hrest]
  · intro hs
    induction l with
    | nil => simp [dpcSeq]
    | cons p rest ih =>
      have hD : Dpc env ⟨none⟩ p.1 p.2 =
          (DpcResult.noneObject "Cannot find KDBG structure", ⟨none⟩, 1) := by
        simp [Dpc, hb, hk, hs]
      obtain ⟨hlen, hres⟩ := ih
      rcases hrec : dpcSeq env ⟨none⟩ rest with ⟨rs, a3, s2⟩
      rw [hrec] at hlen hres
      dsimp only at hlen hres
      simp only [dpcSeq, hD, hrec, List.map_cons, List.length_cons]
      constructor
      · omega
      · rw [hres]

/-- Witness for the amended C5 at concrete inputs. -/
theorem C5_memoization_witness :
    (dpcSeq ⟨false, true, some (5, 7)⟩ ⟨none⟩ [(1, 2), (3, 4)]).2.2 ≤ 1 ∧
    (dpcSeq ⟨false, true, none⟩ ⟨none⟩ [(1, 2), (3, 4)]).2.2 = 2 :=
  ⟨((C5_memoization ⟨false, true, some (5, 7)⟩ [(1, 2), (3, 4)] rfl rfl).1
      5 7 rfl).1,
   ((C5_memoization ⟨false, true, none⟩ [(1, 2), (3, 4)] rfl rfl).2 rfl).1⟩

/-! ### Claim C7: 32-bit direct read -/

/-- Claim C7: On a 32-bit target every `_KTIMER.Dpc` access returns the
stored member directly: no decode transform is applied, the KDBG attribute
cache is untouched, and the bootstrap scan never runs — whatever the rest
of the environment looks like (no parent-chain walk is involved). -/
theorem C7_bits32_direct (env : DpcEnv) (attrs : KdbgAttrs) (v o : Nat)
    (h : env.bits32 = true) :
    Dpc env attrs v o = (DpcResult.raw v, attrs, 0) := by
  simp [Dpc, h]

/-- Witness for C7 at concrete inputs. -/
theorem C7_bits32_direct_witness :
    Dpc ⟨true, false, none⟩ ⟨none⟩ 42 7 = (DpcResult.raw 42, ⟨none⟩, 0) :=
  C7_bits32_direct ⟨true, false, none⟩ ⟨none⟩ 42 7 rfl

/-! ### Timer records, filtering and module attribution
(`Timers.calculate`, lines 170-278) -/

/-- One `_KTIMER` record as `Timers.calculate` reads it: virtual offset,
`Header.Type`, `Header.SignalState`, the two 32-bit due-time halves,
`Period`, and the masked `Dpc.DeferredRoutine` address.  `dpcRoutine` is
`none` when the `Dpc` property returned a `NoneObject` (bootstrapper or
decode failure): every attribute of a `NoneObject`, including
`DeferredRoutine`, is again a `NoneObject`, for which the module lookup
finds nothing. -/
structure KTimerRec where
  objOffset : Nat
  headerType : Nat
  signalState : Nat
  dueHigh : Nat
  dueLow : Nat
  period : Nat
  dpcRoutine : Option Nat
deriving DecidableEq

/-- A loaded module; `baseDllName` is `none` when `BaseDllName` is absent
or unreadable (a falsy value in the source, turned into `''` by
`str(module.BaseDllName or '')`). -/
structure KModule where
  baseDllName : Option String
deriving DecidableEq

/-- Constant `TimerNotificationObject = 8` (`src/timers.py` line 185). -/
def TimerNotificationObject : Nat := 8

/-- Constant `TimerSynchronizationObject = 9` (`src/timers.py` line 186). -/
def TimerSynchronizationObject : Nat := 9

/-- Constant `valid_types = (TimerNotificationObject, TimerSynchronizationObject)`
(line 187). -/
def validTypes : List Nat := [TimerNotificationObject, TimerSynchronizationObject]

/-- The record loop of `Timers.calculate` (lines 261-278): drop every timer
whose `Header.Type` is not in `valid_types`, look the DPC routine address
up in the module map, and yield the `(timer, module)` pair.  `findModule`
abstracts `tasks.find_module` over the sorted module list (an external
collaborator); a `none` routine address (unresolved DPC) finds no
module. -/
def calculatePairs (timers : List KTimerRec)
    (findModule : Nat → Option KModule) : List (KTimerRec × Option KModule) :=
  (timers.filter fun t => decide (t.headerType ∈ validTypes)).map
    fun t => (t, t.dpcRoutine.bind findModule)

/-- Run level view of `Timers.calculate`: select the branch from the version
data, collect the timers of that branch's table walk (`tables` abstracts
the image-dependent traversal), and run the record loop.  The `Bool` is
whether an "unsupported kernel version" error was raised: the source's
`if`/`elif` chain (lines 189, 214, 251) has no `else`, so an unmatched
version falls through silently — no branch walked, no error raised. -/
def calculateRun (major minor build : Nat)
    (tables : TimerBranch → List KTimerRec)
    (findModule : Nat → Option KModule) :
    List (KTimerRec × Option KModule) × Bool :=
  match selectBranch major minor build with
  | some br => (calculatePairs (tables br) findModule, false)
  | none => ([], false)

/-! ### Claim C9: the type filter -/

/-- Claim C9: A record survives the filter exactly when its header type tag
is one of the two valid constants 8 (notification timer) and
9 (synchronization timer); in particular type 7 is dropped and types 8
and 9 are retained. -/
theorem C9_type_filter (timers : List KTimerRec)
    (findModule : Nat → Option KModule) (t : KTimerRec) :
    ((∃ m, (t, m) ∈ calculatePairs timers findModule) ↔
      t ∈ timers ∧ (t.headerType = 8 ∨ t.headerType = 9)) ∧
    validTypes = [8, 9] ∧
    7 ∉ validTypes ∧ 8 ∈ validTypes ∧ 9 ∈ validTypes := by
  refine ⟨?_, rfl, by decide, by decide, by decide⟩
  constructor
  · rintro ⟨m, hm⟩
    unfold calculatePairs at hm
    obtain ⟨t', ht', he⟩ := List.mem_map.mp hm
    obtain ⟨htmem, htype⟩ := List.mem_filter.mp ht'
    cases he
    refine ⟨htmem, ?_⟩
    have := of_decide_eq_true htype
    simpa [validTypes, TimerNotificationObject, TimerSynchronizationObject]
      using this
  · rintro ⟨hmem, htype⟩
    refine ⟨t.dpcRoutine.bind findModule, ?_⟩
    unfold calculatePairs
    apply List.mem_map.mpr
    refine ⟨t, ?_, rfl⟩
    apply List.mem_filter.mpr
    refine ⟨hmem, ?_⟩
    apply decide_eq_true
    simpa [validTypes, TimerNotificationObject, TimerSynchronizationObject]
      using htype

/-- Witness for C9 at concrete inputs. -/
theorem C9_type_filter_witness :
    (⟨0, 9, 0, 0, 0, 0, none⟩ : KTimerRec) ∈ [(⟨0, 9, 0, 0, 0, 0, none⟩ : KTimerRec)] ∧
    ((⟨0, 9, 0, 0, 0, 0, none⟩ : KTimerRec).headerType = 8 ∨
      (⟨0, 9, 0, 0, 0, 0, none⟩ : KTimerRec).headerType = 9) ∧
    ∃ m, ((⟨0, 9, 0, 0, 0, 0, none⟩ : KTimerRec), m) ∈
      calculatePairs [⟨0, 9, 0, 0, 0, 0, none⟩] (fun _ => none) :=
  ⟨by decide, by decide,
    (C9_type_filter [⟨0, 9, 0, 0, 0, 0, none⟩] (fun _ => none)
      ⟨0, 9, 0, 0, 0, 0, none⟩).1.mpr ⟨by decide, by decide⟩⟩

/-! ### Claim C6 (corrected): unmatched versions -/

/-- Counterexample to C6 as stated: at the unmatched version (5, 0) no
branch is selected and the enumeration is empty, but no "unsupported
kernel version" error is raised — the `if`/`elif` chain of
`Timers.calculate` has no `else`, so the run ends silently. -/
theorem C6_counterexample :
    selectBranch 5 0 0 = none ∧
    ¬ (calculateRun 5 0 0 (fun _ => []) (fun _ => none)).2 = true ∧
    (calculateRun 5 0 0 (fun _ => []) (fun _ => none)).1 = [] := by
  refine ⟨rfl, ?_, rfl⟩
  decide

/-- Claim C6, amended: For every version tuple matched by none of the three
branches, the enumeration produces zero timer records and no layout is
guessed — but the run does not fail: no "unsupported kernel version" error
is raised, the plugin silently yields an empty sequence. -/
theorem C6_unmatched_version (major minor build : Nat)
    (tables : TimerBranch → List KTimerRec)
    (findModule : Nat → Option KModule)
    (h : selectBranch major minor build = none) :
    calculateRun major minor build tables findModule = ([], false) := by
  unfold calculateRun
  rw [h]

/-- Witness for the amended C6 at concrete inputs. -/
theorem C6_unmatched_version_witness :
    calculateRun 5 0 0 (fun _ => []) (fun _ => none) = ([], false) :=
  C6_unmatched_version 5 0 0 (fun _ => []) (fun _ => none) rfl

/-! ### Claim C8: unresolved callbacks are still emitted -/

/-- The module column of the unified-output generator
(`Timers.generator`, lines 297-300): `"UNKNOWN"` when no module was
attributed, otherwise `str(module.BaseDllName or '')`. -/
def generatorModuleName (m : Option KModule) : String :=
  match m with
  | some kmod => kmod.baseDllName.getD ""
  | none => "UNKNOWN"

/-- Claim C8: A timer record of valid type whose DPC could not be resolved
(bootstrapper or decode failure, so its routine address is a `NoneObject`)
is still emitted by `Timers.calculate` — paired with no module — and the
renderer reports its module as "UNKNOWN". -/
theorem C8_unresolved_emitted (timers : List KTimerRec)
    (findModule : Nat → Option KModule) (t : KTimerRec)
    (hmem : t ∈ timers) (htype : t.headerType ∈ validTypes)
    (hfail : t.dpcRoutine = none) :
    (t, none) ∈ calculatePairs timers findModule ∧
    generatorModuleName none = "UNKNOWN" := by
  refine ⟨?_, rfl⟩
  unfold calculatePairs
  apply List.mem_map.mpr
  refine ⟨t, ?_, ?_⟩
  · exact List.mem_filter.mpr ⟨hmem, decide_eq_true htype⟩
  · rw [hfail]
    rfl

/-- Witness for C8 at concrete inputs. -/
theorem C8_unresolved_emitted_witness :
    ((⟨16, 8, 1, 0, 0, 0, none⟩ : KTimerRec), none) ∈
      calculatePairs [⟨16, 8, 1, 0, 0, 0, none⟩] (fun _ => some ⟨some "nt"⟩) ∧
    generatorModuleName none = "UNKNOWN" :=
  C8_unresolved_emitted [⟨16, 8, 1, 0, 0, 0, none⟩] (fun _ => some ⟨some "nt"⟩)
    ⟨16, 8, 1, 0, 0, 0, none⟩ (by decide) (by decide) rfl

/-! ### The two renderers (`Timers.generator`, lines 289-304, and
`Timers.render_text`, lines 306-337) -/

/-- Python `"{0:#010x}".format(n)`: lowercase hexadecimal with a `0x`
marker, zero-padded to a total width of 10 characters (8 hex digits for
any 32-bit value). -/
def fmtHex010 (n : Nat) : String :=
  "0x" ++ String.mk (List.replicate (8 - (Nat.toDigits 16 n).length) '0') ++
    String.mk (Nat.toDigits 16 n)

/-- Signaled column of `Timers.generator` (lines 292-295): `"Yes"` when
`Header.SignalState` is truthy (nonzero), `"-"` otherwise. -/
def generatorSignaled (t : KTimerRec) : String :=
  if t.signalState ≠ 0 then "Yes" else "-"

/-- Due-time column of `Timers.generator` (line 302):
`"{0:#010x}:{1:#010x}".format(DueTime.HighPart, DueTime.LowPart)`. -/
def generatorDueTime (t : KTimerRec) : String :=
  fmtHex010 t.dueHigh ++ ":" ++ fmtHex010 t.dueLow

/-- One row yielded by `Timers.generator` (line 304): offset, due time,
period, signaled, routine, module. -/
def generatorRow (t : KTimerRec) (m : Option KModule) :
    Nat × String × Nat × String × Option Nat × String :=
  (t.objOffset, generatorDueTime t, t.period, generatorSignaled t,
    t.dpcRoutine, generatorModuleName m)

/-- Signaled column of `Timers.render_text` (lines 319-322) — the same
computation, duplicated in the source. -/
def renderTextSignaled (t : KTimerRec) : String :=
  if t.signalState ≠ 0 then "Yes" else "-"

/-- Module column of `Timers.render_text` (lines 324-327). -/
def renderTextModuleName (m : Option KModule) : String :=
  match m with
  | some kmod => kmod.baseDllName.getD ""
  | none => "UNKNOWN"

/-- Due-time column of `Timers.render_text` (line 329). -/
def renderTextDueTime (t : KTimerRec) : String :=
  fmtHex010 t.dueHigh ++ ":" ++ fmtHex010 t.dueLow

/-- One row written by `Timers.render_text` (lines 331-337). -/
def renderTextRow (t : KTimerRec) (m : Option KModule) :
    Nat × String × Nat × String × Option Nat × String :=
  (t.objOffset, renderTextDueTime t, t.period, renderTextSignaled t,
    t.dpcRoutine, renderTextModuleName m)

/-! ### Claim C10: the renderers agree -/

/-- Claim C10: For every (timer, module) pair the unified-output generator
and the plain-text renderer compute identical row content: the same
signaled string (`"Yes"` exactly when the signal-state field is nonzero,
`"-"` otherwise), the same module name (`"UNKNOWN"` in the unattributed
case, the module's base name otherwise), and the same due-time string,
the two zero-padded 32-bit hexadecimal halves separated by `":"`. -/
theorem C10_renderers_agree (t : KTimerRec) (m : Option KModule) :
    generatorRow t m = renderTextRow t m ∧
    (generatorSignaled t = "Yes" ↔ t.signalState ≠ 0) ∧
    (t.signalState = 0 → generatorSignaled t = "-") ∧
    generatorModuleName none = "UNKNOWN" ∧
    (∀ kmod : KModule, generatorModuleName (some kmod) =
      renderTextModuleName (some kmod)) ∧
    generatorDueTime t = fmtHex010 t.dueHigh ++ ":" ++ fmtHex010 t.dueLow := by
  refine ⟨rfl, ?_, ?_, rfl, fun _ => rfl, rfl⟩
  · unfold generatorSignaled
    constructor
    · intro hy
      intro h0
      rw [if_neg (by simpa using h0)] at hy
      exact absurd hy (by decide)
    · intro hne
      rw [if_pos hne]
  · intro h0
    unfold generatorSignaled
    rw [if_neg (by simpa using h0)]

/-- Witness for C10 at concrete inputs. -/
theorem C10_renderers_agree_witness :
    generatorRow ⟨4096, 9, 1, 1, 2147483648, 5000, some 4660⟩ (some ⟨some "ntoskrnl.exe"⟩) =
      renderTextRow ⟨4096, 9, 1, 1, 2147483648, 5000, some 4660⟩ (some ⟨some "ntoskrnl.exe"⟩) ∧
    (generatorSignaled ⟨4096, 9, 1, 1, 2147483648, 5000, some 4660⟩ = "Yes" ↔
      (⟨4096, 9, 1, 1, 2147483648, 5000, some 4660⟩ : KTimerRec).signalState ≠ 0) :=
  ⟨(C10_renderers_agree ⟨4096, 9, 1, 1, 2147483648, 5000, some 4660⟩
      (some ⟨some "ntoskrnl.exe"⟩)).1,
   (C10_renderers_agree ⟨4096, 9, 1, 1, 2147483648, 5000, some 4660⟩
      (some ⟨some "ntoskrnl.exe"⟩)).2.1⟩

/-! ### Signature-based symbol resolution
(`Timers.find_list_head_offset`, lines 149-168) -/

/-- Python `data.find(sig)`: index of the first occurrence of `sig` as a
contiguous run inside `data`, `none` when absent. -/
def pyFind (data sig : List Nat) : Option Nat :=
  (List.range (data.length + 1)).find? fun i =>
    (data.drop i).take sig.length == sig

/-- Embedding of `Timers.find_list_head_offset` (`src/timers.py` lines 149-168): resolve
the exported function, read a 300-byte window at its address, scan for the
signature, read the 4 bytes right after the match and unpack them with
`struct.unpack("I", ...)` — an UNSIGNED little-endian 32-bit integer — and
return `ptr + func_addr + n + len(sig) + 4`.  `procAddress` is the
`getprocaddress` result, `mem` the virtual address space (one byte per
address). -/
def find_list_head_offset (procAddress : Option Nat) (dllBase : Nat)
    (mem : Nat → Nat) (sig : List Nat) : Option Nat :=
  match procAddress with
  | none => none
  | some funcRva =>
    let funcAddr := funcRva + dllBase
    let data := (List.range 300).map fun i => mem (funcAddr + i) % 256
    match pyFind data sig with
    | none => none
    | some n =>
      let p := fun j => mem (funcAddr + n + sig.length + j) % 256
      let ptr := p 0 + p 1 * 256 + p 2 * 65536 + p 3 * 16777216
      some (ptr + funcAddr + n + sig.length + 4)

/-- Modelled from the spec: the little-endian 32-bit SIGNED displacement
interpretation the claim prescribes for the 4 bytes after the match. -/
def sint32OfLe (b0 b1 b2 b3 : Nat) : Int :=
  let u := b0 + b1 * 256 + b2 * 65536 + b3 * 16777216
  if u < 2147483648 then (u : Int) else (u : Int) - 4294967296

set_option maxRecDepth 20000 in
/-- Claim C3, code bug: With the four displacement bytes `FF FF FF FF`
(signed value −1) right after a signature matched at offset 0 of a
function at address 0, the resolver returns
`4294967295 + (0 + 0 + 1 + 4) = 4294967300`: `struct.unpack("I", ...)`
treats the displacement as unsigned, whereas the claimed (and
architecturally correct, RIP-relative) signed interpretation yields
`−1 + (0 + 0 + 1 + 4) = 3 + 1 = 4`. -/
theorem C3_unsigned_displacement :
    find_list_head_offset (some 0) 0
      (fun addr => if addr = 0 then 170 else 255) [170] = some 4294967300 ∧
    sint32OfLe 255 255 255 255 = -1 ∧
    ((4294967300 : Int) ≠ sint32OfLe 255 255 255 255 + (0 + 0 + 1 + 4)) := by
  refine ⟨?_, by decide, by decide⟩
  rfl
